import Mathlib

/-!
Verification of the OAuth token-acquisition subsystem of
simple-enterprise-mcp-chat (src/oauth_handler.py) against its specification.

The Python module is shallowly embedded: dictionaries become structures with
optional fields, the token storage file becomes an association list keyed by
server name, machine time is an integer parameter, and the behaviour of the
external collaborators (discovery endpoint, registration endpoint, token
endpoint, callback requests, file contents, randomness) is a record of inputs.
Network requests and the browser launch are recorded as an event trace.
Uncaught Python exceptions are modelled with Except.
-/

namespace OAuthModel

/-- JSON scalar values for fields the code may receive with an unexpected
type, such as expires_in arriving as a string instead of a number. -/
inductive Val where
  | num (n : Int)
  | str (s : String)
deriving DecidableEq, Repr

/-- A ServerRecord: one entry of the token storage file, which is also the
shape of a token-endpoint or registration response body. A field that is
none models an absent JSON key. -/
structure TokenData where
  access_token : Option String := none
  refresh_token : Option String := none
  expires_in : Option Val := none
  expires_at : Option Int := none
  client_id : Option String := none
  client_secret : Option String := none
deriving DecidableEq, Repr

/-- The parsed token storage file: a JSON object mapping server names to
records, as an association list. -/
abbrev Store : Type := List (String × TokenData)

/-- Dictionary lookup on the association list. -/
def lookupKey (ts : Store) (k : String) : Option TokenData :=
  match ts with
  | [] => none
  | (k2, v) :: rest => if k2 = k then some v else lookupKey rest k

/-- Dictionary update tokens[k] = v: replaces the entry for k, keeping every
other entry, appending when k is new. -/
def setKey (ts : Store) (k : String) (v : TokenData) : Store :=
  match ts with
  | [] => [(k, v)]
  | (k2, v2) :: rest => if k2 = k then (k, v) :: rest else (k2, v2) :: setKey rest k v

/-- Python truthiness of an optional string: None and the empty string are
falsy, every other string is truthy. -/
def pyTruthy (o : Option String) : Bool :=
  match o with
  | none => false
  | some s => !(s == "")

/-- The Python expression x or y for x an optional string and y a string. -/
def pyOr (o : Option String) (fallback : String) : String :=
  match o with
  | none => fallback
  | some s => if s == "" then fallback else s

/-- Uncaught Python exceptions that can cross the module boundary in this
model: the TypeError raised by timedelta(seconds=...) on a non-numeric
expires_in. -/
inductive PyErr where
  | typeError
deriving DecidableEq, Repr

instance {ε α : Type} [DecidableEq ε] [DecidableEq α] :
    DecidableEq (Except ε α) := fun x y =>
  match x, y with
  | .ok a, .ok b =>
    if h : a = b then .isTrue (by rw [h])
    else .isFalse (fun hc => h (by cases hc; rfl))
  | .ok _, .error _ => .isFalse (fun hc => by cases hc)
  | .error _, .ok _ => .isFalse (fun hc => by cases hc)
  | .error e, .error f =>
    if h : e = f then .isTrue (by rw [h])
    else .isFalse (fun hc => h (by cases hc; rfl))

/-- OAuthHandler.get_stored_token (src/oauth_handler.py lines 224-256), as a
function of the parsed token file (none when the file is missing or
unparseable, matching the caught JSONDecodeError), the server name and the
current time. Returns none when the entry is absent, has no access_token,
or has an expires_at that is not in the strict future. -/
def get_stored_token (file : Option Store) (server_name : String) (now : Int) :
    Option TokenData :=
  match file with
  | none => none
  | some tokens =>
    match lookupKey tokens server_name with
    | none => none
    | some token_data =>
      if token_data.access_token.isNone then none
      else
        match token_data.expires_at with
        | some e => if now ≥ e then none else some token_data
        | none => some token_data

/-- OAuthHandler.store_token (lines 258-287). Loads the existing file (an
unparseable or missing file becomes the empty dict), computes expires_at
from expires_in when present, and writes the record under the server name.
Returns the finalized record together with the new file contents. When
expires_in is present but not a number, timedelta(seconds=...) raises
TypeError before anything is written. The chmod call is elided. -/
def store_token (file : Option Store) (server_name : String) (now : Int)
    (token_data : TokenData) : Except PyErr (TokenData × Store) :=
  let tokens := file.getD []
  match token_data.expires_in with
  | some (.str _) => .error .typeError
  | some (.num n) =>
    let td := { token_data with expires_at := some (now + n) }
    .ok (td, setKey tokens server_name td)
  | none => .ok (token_data, setKey tokens server_name token_data)

/-! SHA-256 (FIPS 180-4), executable over byte lists, used by the PKCE
challenge computation (the Python code calls hashlib.sha256). -/

/-- Rotate a 32-bit word right by n bit positions, wrapping around. -/
def rotr32 (n x : Nat) : Nat := ((x >>> n) ||| (x <<< (32 - n))) % 4294967296

def shaCh (x y z : Nat) : Nat := (x &&& y) ^^^ ((x ^^^ 4294967295) &&& z)

def shaMaj (x y z : Nat) : Nat := (x &&& y) ^^^ (x &&& z) ^^^ (y &&& z)

def sigBig0 (x : Nat) : Nat := rotr32 2 x ^^^ rotr32 13 x ^^^ rotr32 22 x

def sigBig1 (x : Nat) : Nat := rotr32 6 x ^^^ rotr32 11 x ^^^ rotr32 25 x

def sigSmall0 (x : Nat) : Nat := rotr32 7 x ^^^ rotr32 18 x ^^^ (x >>> 3)

def sigSmall1 (x : Nat) : Nat := rotr32 17 x ^^^ rotr32 19 x ^^^ (x >>> 10)

def shaK : List Nat :=
  [1116352408, 1899447441, 3049323471, 3921009573, 961987163, 1508970993,
   2453635748, 2870763221, 3624381080, 310598401, 607225278, 1426881987,
   1925078388, 2162078206, 2614888103, 3248222580, 3835390401, 4022224774,
   264347078, 604807628, 770255983, 1249150122, 1555081692, 1996064986,
   2554220882, 2821834349, 2952996808, 3210313671, 3336571891, 3584528711,
   113926993, 338241895, 666307205, 773529912, 1294757372, 1396182291,
   1695183700, 1986661051, 2177026350, 2456956037, 2730485921, 2820302411,
   3259730800, 3345764771, 3516065817, 3600352804, 4094571909, 275423344,
   430227734, 506948616, 659060556, 883997877, 958139571, 1322822218,
   1537002063, 1747873779, 1955562222, 2024104815, 2227730452, 2361852424,
   2428436474, 2756734187, 3204031479, 3329325298]

def shaH0 : List Nat :=
  [1779033703, 3144134277, 1013904242, 2773480762,
   1359893119, 2600822924, 528734635, 1541459225]

/-- Big-endian byte serialization of a natural number on k bytes. -/
def toBytesBE (k n : Nat) : List Nat :=
  match k with
  | 0 => []
  | j + 1 => toBytesBE j (n / 256) ++ [n % 256]

/-- SHA-256 padding: append 0x80, zeros, and the 64-bit big-endian bit
length, reaching a multiple of 64 bytes. -/
def sha256Pad (msg : List Nat) : List Nat :=
  msg ++ [128] ++ List.replicate ((119 - msg.length % 64) % 64) 0
      ++ toBytesBE 8 (8 * msg.length)

/-- Groups a byte list into big-endian 32-bit words. -/
def bytesToWords : List Nat → List Nat
  | b0 :: b1 :: b2 :: b3 :: rest =>
    (((b0 * 256 + b1) * 256 + b2) * 256 + b3) :: bytesToWords rest
  | _ => []

/-- Extends the 16-word message block by one scheduled word per step. -/
def shaExtendSteps : Nat → List Nat → List Nat
  | 0, w => w
  | k + 1, w =>
    let len := w.length
    shaExtendSteps k (w ++ [(sigSmall1 (w.getD (len - 2) 0) + w.getD (len - 7) 0
      + sigSmall0 (w.getD (len - 15) 0) + w.getD (len - 16) 0) % 4294967296])

def shaExtend (w : List Nat) : List Nat := shaExtendSteps 48 w

/-- One round of the SHA-256 compression function on the 8-word state. -/
def shaRound (st : Nat × Nat × Nat × Nat × Nat × Nat × Nat × Nat)
    (kw : Nat × Nat) : Nat × Nat × Nat × Nat × Nat × Nat × Nat × Nat :=
  let (a, b, c, d, e, f, g, h) := st
  let t1 := (h + sigBig1 e + shaCh e f g + kw.1 + kw.2) % 4294967296
  let t2 := (sigBig0 a + shaMaj a b c) % 4294967296
  ((t1 + t2) % 4294967296, a, b, c, (d + t1) % 4294967296, e, f, g)

/-- Compression of one 64-byte block into the running hash values. -/
def shaCompress (hs : List Nat) (block : List Nat) : List Nat :=
  let w := shaExtend (bytesToWords block)
  let st0 := (hs.getD 0 0, hs.getD 1 0, hs.getD 2 0, hs.getD 3 0,
              hs.getD 4 0, hs.getD 5 0, hs.getD 6 0, hs.getD 7 0)
  let res := (List.zip shaK w).foldl shaRound st0
  let (a, b, c, d, e, f, g, h) := res
  [(hs.getD 0 0 + a) % 4294967296, (hs.getD 1 0 + b) % 4294967296,
   (hs.getD 2 0 + c) % 4294967296, (hs.getD 3 0 + d) % 4294967296,
   (hs.getD 4 0 + e) % 4294967296, (hs.getD 5 0 + f) % 4294967296,
   (hs.getD 6 0 + g) % 4294967296, (hs.getD 7 0 + h) % 4294967296]

/-- Folds the compression function over the 64-byte blocks; the fuel is an
upper bound on the number of blocks. -/
def sha256Blocks (fuel : Nat) (hs : List Nat) (bs : List Nat) : List Nat :=
  match fuel with
  | 0 => hs
  | k + 1 =>
    match bs with
    | [] => hs
    | _ => sha256Blocks k (shaCompress hs (bs.take 64)) (bs.drop 64)

/-- SHA-256 digest of a byte list, as 32 bytes. -/
def sha256 (msg : List Nat) : List Nat :=
  let padded := sha256Pad msg
  ((sha256Blocks padded.length shaH0 padded).map (toBytesBE 4)).flatten

/-! URL-safe base64 without padding, matching
base64.urlsafe_b64encode(...).decode().rstrip of the padding. -/

def b64Char (n : Nat) : Char :=
  if n < 26 then Char.ofNat (65 + n)
  else if n < 52 then Char.ofNat (97 + (n - 26))
  else if n < 62 then Char.ofNat (48 + (n - 52))
  else if n = 62 then '-'
  else '_'

def base64urlChars : List Nat → List Char
  | [] => []
  | [b0] => [b64Char (b0 / 4), b64Char (b0 % 4 * 16)]
  | [b0, b1] => [b64Char (b0 / 4), b64Char (b0 % 4 * 16 + b1 / 16),
                 b64Char (b1 % 16 * 4)]
  | b0 :: b1 :: b2 :: rest =>
    b64Char (b0 / 4) :: b64Char (b0 % 4 * 16 + b1 / 16)
      :: b64Char (b1 % 16 * 4 + b2 / 64) :: b64Char (b2 % 64)
      :: base64urlChars rest

/-- URL-safe unpadded base64 encoding of a byte list. -/
def base64urlNoPad (bs : List Nat) : String := String.mk (base64urlChars bs)

/-- ASCII bytes of a string (the code's .encode of the verifier, which is
base64 output and hence ASCII). -/
def strBytes (s : String) : List Nat := s.data.map Char.toNat

/-- The challenge derivation of src/oauth_handler.py lines 347-349:
URL-safe unpadded base64 of the SHA-256 digest of the verifier's bytes. -/
def deriveChallenge (code_verifier : String) : String :=
  base64urlNoPad (sha256 (strBytes code_verifier))

/-- PKCE pair generation (lines 346-349): the verifier is the URL-safe
unpadded base64 of secrets.token_bytes(32); the challenge is derived from
the verifier. The 32 random bytes are a parameter. -/
def genPkce (randomBytes : List Nat) : String × String :=
  let code_verifier := base64urlNoPad randomBytes
  (code_verifier, deriveChallenge code_verifier)

/-! The OAuth flow itself, as a function of the behaviour of all external
collaborators. -/

/-- The optional fields of the discovery document returned by the well-known
endpoint. -/
structure Discovery where
  authorization_endpoint : Option String := none
  token_endpoint : Option String := none
  registration_endpoint : Option String := none
deriving DecidableEq, Repr

/-- The caller-supplied oauth_config dictionary. -/
structure OAuthConfig where
  auth_url : Option String := none
  token_url : Option String := none
  client_id : Option String := none
  client_secret : Option String := none
  scopes : List String := []
  redirect_port : Nat := 8080
deriving DecidableEq, Repr

/-- The fields of a dynamic client registration response body. -/
structure RegResponse where
  client_id : Option String := none
  client_secret : Option String := none
deriving DecidableEq, Repr

/-- Outcome of the callback wait loop in authorize: the first request that
sets auth_code or auth_error on the handler class, or the 300 second
timeout. -/
inductive CallbackOutcome where
  | code (c : String)
  | authError (e : String)
  | timeout
deriving DecidableEq, Repr

/-- One run's behaviour of the external collaborators: the discovery endpoint
(none means unreachable, non-200 or bad JSON), the registration endpoint
(none means request failure or non-2xx), the callback result, the token
endpoint response to the code exchange and to a refresh grant (none means
RequestException, covering timeouts and non-2xx), the bytes produced by
secrets.token_bytes(32), the token file contents (none means missing or
unparseable) and the current time. -/
structure Env where
  discovery : Option Discovery := none
  regResponse : Option RegResponse := none
  callback : CallbackOutcome := .timeout
  exchangeResponse : Option TokenData := none
  refreshResponse : Option TokenData := none
  randomBytes : List Nat := List.replicate 32 0
  file : Option Store := none
  now : Int := 0
deriving Repr

/-- Form body of a POST to the token endpoint. -/
structure TokenRequest where
  grant_type : String
  code : Option String := none
  refresh_token : Option String := none
  redirect_uri : Option String := none
  code_verifier : Option String := none
  client_id : Option String := none
  client_secret : Option String := none
deriving DecidableEq, Repr

/-- Query parameters of the authorization URL opened in the browser
(percent-encoding of the assembled URL is elided). -/
structure AuthParams where
  redirect_uri : String
  response_type : String
  code_challenge : String
  code_challenge_method : String
  client_id : Option String := none
  scope : Option String := none
deriving DecidableEq, Repr

/-- Observable external actions of one run, in order. -/
inductive Event where
  | discoveryGet (url : String)
  | registrationPost (url : String)
  | browserOpen (auth_url : String) (params : AuthParams)
  | tokenPost (url : String) (body : TokenRequest)
deriving DecidableEq, Repr

def Event.isTokenPost : Event → Bool
  | .tokenPost _ _ => true
  | _ => false

def Event.isRegistrationPost : Event → Bool
  | .registrationPost _ => true
  | _ => false

def Event.isBrowserOpen : Event → Bool
  | .browserOpen _ _ => true
  | _ => false

/-- A POST of a refresh grant to the token endpoint. -/
def Event.isRefreshPost : Event → Bool
  | .tokenPost _ body => body.grant_type == "refresh_token"
  | _ => false

/-- Network calls are the discovery GET, the registration POST and the token
endpoint POST; opening the browser is not one. -/
def Event.isNetworkCall : Event → Bool
  | .discoveryGet _ => true
  | .registrationPost _ => true
  | .tokenPost _ _ => true
  | .browserOpen _ _ => false

/-- The fields of an OAuthHandler after __init__. -/
structure Handler where
  server_name : String
  server_url : String
  redirect_port : Nat
  redirect_uri : String
  discovery_data : Option Discovery
  auth_url : String
  token_url : String
  registration_endpoint : Option String
  client_id : Option String
  client_secret : Option String
  scopes : List String
deriving DecidableEq, Repr

/-- The Python server_url.rstrip of trailing slashes. -/
def rstripSlash (s : String) : String :=
  String.mk ((s.data.reverse.dropWhile (fun c => c == '/')).reverse)

/-- OAuthHandler._discover_auth_url (lines 192-206): the discovered
authorization_endpoint when present and truthy, else the convention
fallback server_url/oauth/authorize. -/
def discover_auth_url (discovery_data : Option Discovery) (server_url : String) :
    String :=
  match discovery_data with
  | some d =>
    match d.authorization_endpoint with
    | some u => if u == "" then server_url ++ "/oauth/authorize" else u
    | none => server_url ++ "/oauth/authorize"
  | none => server_url ++ "/oauth/authorize"

/-- OAuthHandler._discover_token_url (lines 208-222): the discovered
token_endpoint when present and truthy, else the convention fallback
server_url/oauth/token. -/
def discover_token_url (discovery_data : Option Discovery) (server_url : String) :
    String :=
  match discovery_data with
  | some d =>
    match d.token_endpoint with
    | some u => if u == "" then server_url ++ "/oauth/token" else u
    | none => server_url ++ "/oauth/token"
  | none => server_url ++ "/oauth/token"

/-- The network part of OAuthHandler._auto_register_client (lines 155-190):
the RFC 7591 registration POST. Takes the client_id and client_secret the
handler held before the call, which survive when the request fails. On a
response with a truthy client_id, the merged credentials are persisted via
store_token; a store_token exception is caught by the surrounding
except Exception. Returns the resulting credentials, events and file. -/
def register_client_request (env : Env) (server_name : String)
    (registration_endpoint : String) (cid0 csec0 : Option String)
    (file : Option Store) :
    (Option String × Option String) × List Event × Option Store :=
  let ev := [Event.registrationPost registration_endpoint]
  match env.regResponse with
  | none => ((cid0, csec0), ev, file)
  | some rr =>
    let client_id := rr.client_id
    let client_secret := rr.client_secret
    if pyTruthy client_id then
      let token_data := (get_stored_token file server_name env.now).getD {}
      let token_data := { token_data with client_id := client_id }
      let token_data :=
        if pyTruthy client_secret then { token_data with client_secret := client_secret }
        else token_data
      match store_token file server_name env.now token_data with
      | .ok (_, ts) => ((client_id, client_secret), ev, some ts)
      | .error _ => ((client_id, client_secret), ev, file)
    else ((client_id, client_secret), ev, file)

/-- OAuthHandler._auto_register_client (lines 142-190): first consults
get_stored_token; the stored record is reused only when get_stored_token
returns it, which requires a valid unexpired access_token, and it carries a
client_id. Otherwise the registration request is made. -/
def auto_register_client (env : Env) (server_name : String)
    (registration_endpoint : String) (cid0 csec0 : Option String)
    (file : Option Store) :
    (Option String × Option String) × List Event × Option Store :=
  let stored_data := get_stored_token file server_name env.now
  if stored_data.isSome && (stored_data.bind TokenData.client_id).isSome then
    ((stored_data.bind TokenData.client_id, stored_data.bind TokenData.client_secret),
     [], file)
  else
    register_client_request env server_name registration_endpoint cid0 csec0 file

/-- OAuthHandler.__init__ (lines 84-122): normalizes the base URL, always
performs the discovery GET, resolves the three endpoints, and auto-registers
exactly when the configured client_id is falsy and the resolved registration
endpoint is truthy. Returns the handler, the events and the possibly
updated token file. -/
def initHandler (env : Env) (server_name raw_url : String) (cfg : OAuthConfig) :
    Handler × List Event × Option Store :=
  let server_url := rstripSlash raw_url
  let redirect_uri := "http://localhost:" ++ toString cfg.redirect_port ++ "/callback"
  let ev0 := [Event.discoveryGet (server_url ++ "/.well-known/oauth-authorization-server")]
  let discovery_data := env.discovery
  let auth_url := pyOr cfg.auth_url (discover_auth_url discovery_data server_url)
  let token_url := pyOr cfg.token_url (discover_token_url discovery_data server_url)
  let registration_endpoint := discovery_data.bind Discovery.registration_endpoint
  let reg :=
    if !(pyTruthy cfg.client_id) && pyTruthy registration_endpoint then
      auto_register_client env server_name (registration_endpoint.getD "")
        cfg.client_id cfg.client_secret env.file
    else ((cfg.client_id, cfg.client_secret), [], env.file)
  ({ server_name := server_name, server_url := server_url,
     redirect_port := cfg.redirect_port, redirect_uri := redirect_uri,
     discovery_data := discovery_data, auth_url := auth_url,
     token_url := token_url, registration_endpoint := registration_endpoint,
     client_id := reg.1.1, client_secret := reg.1.2, scopes := cfg.scopes },
   ev0 ++ reg.2.1, reg.2.2)

/-- OAuthHandler.refresh_token (lines 289-319): POST of the refresh grant
with the stored refresh token plus truthy client credentials. A
RequestException yields none; a store_token TypeError propagates, since the
except clause names requests.RequestException only. On success the function
returns the token_data dict as mutated by store_token. -/
def refresh_token (env : Env) (h : Handler) (rt : String) (file : Option Store) :
    Except PyErr (Option TokenData) × List Event × Option Store :=
  let body : TokenRequest :=
    { grant_type := "refresh_token", refresh_token := some rt,
      client_id := if pyTruthy h.client_id then h.client_id else none,
      client_secret := if pyTruthy h.client_secret then h.client_secret else none }
  let ev := [Event.tokenPost h.token_url body]
  match env.refreshResponse with
  | none => (.ok none, ev, file)
  | some td =>
    match store_token file h.server_name env.now td with
    | .ok (td2, ts) => (.ok (some td2), ev, some ts)
    | .error e => (.error e, ev, file)

/-- The interactive part of OAuthHandler.authorize (lines 340-429): PKCE
generation, browser launch, callback wait, and the code exchange. A callback
timeout or error returns none before any token endpoint call. The exchange
catches requests.RequestException only, so the TypeError store_token raises
on a malformed expires_in propagates. -/
def freshFlow (env : Env) (h : Handler) (file : Option Store) (ev0 : List Event) :
    Except PyErr (Option String) × List Event × Option Store :=
  let code_verifier := base64urlNoPad env.randomBytes
  let code_challenge := deriveChallenge code_verifier
  let params : AuthParams :=
    { redirect_uri := h.redirect_uri, response_type := "code",
      code_challenge := code_challenge, code_challenge_method := "S256",
      client_id := if pyTruthy h.client_id then h.client_id else none,
      scope := if h.scopes.isEmpty then none
               else some (String.intercalate " " h.scopes) }
  let ev1 := ev0 ++ [Event.browserOpen h.auth_url params]
  match env.callback with
  | .timeout => (.ok none, ev1, file)
  | .authError _ => (.ok none, ev1, file)
  | .code auth_code =>
    let body : TokenRequest :=
      { grant_type := "authorization_code", code := some auth_code,
        redirect_uri := some h.redirect_uri, code_verifier := some code_verifier,
        client_id := if pyTruthy h.client_id then h.client_id else none,
        client_secret := if pyTruthy h.client_secret then h.client_secret else none }
    let ev2 := ev1 ++ [Event.tokenPost h.token_url body]
    match env.exchangeResponse with
    | none => (.ok none, ev2, file)
    | some token_response =>
      match store_token file h.server_name env.now token_response with
      | .ok (_, ts) => (.ok token_response.access_token, ev2, some ts)
      | .error e => (.error e, ev2, file)

/-- OAuthHandler.authorize (lines 321-429). The first branch returns any
valid stored token. The refresh branch transcribes line 335,
re-testing the same stored_token variable that the first branch already
returned on, so it is reachable only when stored_token is some, which the
previous branch excludes. Otherwise the interactive flow runs. -/
def authorize (env : Env) (h : Handler) (file : Option Store) :
    Except PyErr (Option String) × List Event × Option Store :=
  let stored_token := get_stored_token file h.server_name env.now
  if stored_token.isSome then
    (.ok (stored_token.bind TokenData.access_token), [], file)
  else if stored_token.isSome && (stored_token.bind TokenData.refresh_token).isSome then
    match refresh_token env h ((stored_token.bind TokenData.refresh_token).getD "") file with
    | (.error e, ev, f2) => (.error e, ev, f2)
    | (.ok refreshed, ev, f2) =>
      if refreshed.isSome then (.ok (refreshed.bind TokenData.access_token), ev, f2)
      else freshFlow env h f2 ev
  else freshFlow env h file []

/-- get_token_for_server (lines 432-445): construct the handler, then
authorize; the convenience entry point the rest of the system calls. -/
def get_token_for_server (env : Env) (server_name server_url : String)
    (cfg : OAuthConfig) : Except PyErr (Option String) × List Event × Option Store :=
  let ini := initHandler env server_name server_url cfg
  let res := authorize env ini.1 ini.2.2
  (res.1, ini.2.1 ++ res.2.1, res.2.2)

/-! The local callback listener. -/

/-- The response status of one do_GET invocation and the class fields it
sets. -/
structure GetResult where
  status : Nat
  auth_code : Option String
  auth_error : Option String
deriving DecidableEq, Repr

/-- Lookup in the parse_qs result, a mapping from parameter name to the list
of its values. -/
def firstParam (q : List (String × List String)) (k : String) :
    Option (List String) :=
  match q with
  | [] => none
  | (k2, vs) :: rest => if k2 = k then some vs else firstParam rest k

/-- OAuthCallbackHandler.do_GET (lines 29-72): a code parameter yields 200
and captures the code; otherwise an error parameter yields 400 and captures
the error; any other request yields 400 and captures nothing. -/
def do_GET (query : List (String × List String)) : GetResult :=
  match firstParam query "code" with
  | some vs => { status := 200, auth_code := some (vs.headD ""), auth_error := none }
  | none =>
    match firstParam query "error" with
    | some vs => { status := 400, auth_code := none, auth_error := some (vs.headD "") }
    | none => { status := 400, auth_code := none, auth_error := none }

/-- The callback outcome a single request induces on the wait loop of
authorize, which exits as soon as auth_code or auth_error is set; none means
the loop keeps serving requests. -/
def outcomeOfGet (r : GetResult) : Option CallbackOutcome :=
  match r.auth_code with
  | some c => some (.code c)
  | none =>
    match r.auth_error with
    | some e => some (.authError e)
    | none => none

/-! Helper lemmas. -/

theorem lookupKey_setKey_self (ts : Store) (k : String) (v : TokenData) :
    lookupKey (setKey ts k v) k = some v := by
  induction ts with
  | nil => simp [setKey, lookupKey]
  | cons hd tl ih =>
    obtain ⟨k2, v2⟩ := hd
    by_cases h : k2 = k
    · simp [setKey, lookupKey, h]
    · simp [setKey, lookupKey, h, ih]

theorem lookupKey_setKey_ne (ts : Store) (k j : String) (v : TokenData)
    (h : j ≠ k) : lookupKey (setKey ts k v) j = lookupKey ts j := by
  have hkj : ¬ k = j := fun he => h he.symm
  induction ts with
  | nil => simp [setKey, lookupKey, hkj]
  | cons hd tl ih =>
    obtain ⟨k2, v2⟩ := hd
    by_cases h2 : k2 = k
    · subst h2
      simp [setKey, lookupKey, hkj]
    · simp [setKey, lookupKey, h2, ih]

theorem pyTruthy_false_iff (o : Option String) :
    pyTruthy o = false ↔ o = none ∨ o = some "" := by
  cases o with
  | none => simp [pyTruthy]
  | some s => simp [pyTruthy]

theorem pyOr_of_some (u : String) (f : String) (hne : u ≠ "") :
    pyOr (some u) f = u := by
  simp [pyOr, hne]

theorem pyOr_of_falsy (o : Option String) (f : String)
    (h : pyTruthy o = false) : pyOr o f = f := by
  rcases (pyTruthy_false_iff o).1 h with h | h <;> subst h <;> simp [pyOr]

theorem discover_auth_url_of_some (d : Discovery) (surl v : String)
    (h : d.authorization_endpoint = some v) (hne : v ≠ "") :
    discover_auth_url (some d) surl = v := by
  simp [discover_auth_url, h, hne]

theorem discover_auth_url_of_falsy (dd : Option Discovery) (surl : String)
    (h : pyTruthy (dd.bind Discovery.authorization_endpoint) = false) :
    discover_auth_url dd surl = surl ++ "/oauth/authorize" := by
  cases dd with
  | none => simp [discover_auth_url]
  | some d =>
    cases hd : d.authorization_endpoint with
    | none => simp [discover_auth_url, hd]
    | some v =>
      rw [Option.some_bind, hd] at h
      rcases (pyTruthy_false_iff (some v)).1 h with h2 | h2
      · cases h2
      · injection h2 with h2
        simp [discover_auth_url, hd, h2]

theorem discover_token_url_of_some (d : Discovery) (surl v : String)
    (h : d.token_endpoint = some v) (hne : v ≠ "") :
    discover_token_url (some d) surl = v := by
  simp [discover_token_url, h, hne]

theorem discover_token_url_of_falsy (dd : Option Discovery) (surl : String)
    (h : pyTruthy (dd.bind Discovery.token_endpoint) = false) :
    discover_token_url dd surl = surl ++ "/oauth/token" := by
  cases dd with
  | none => simp [discover_token_url]
  | some d =>
    cases hd : d.token_endpoint with
    | none => simp [discover_token_url, hd]
    | some v =>
      rw [Option.some_bind, hd] at h
      rcases (pyTruthy_false_iff (some v)).1 h with h2 | h2
      · cases h2
      · injection h2 with h2
        simp [discover_token_url, hd, h2]

theorem register_client_request_trace (env : Env) (n ep : String)
    (c0 s0 : Option String) (file : Option Store) :
    (register_client_request env n ep c0 s0 file).2.1
      = [Event.registrationPost ep] := by
  unfold register_client_request
  cases env.regResponse with
  | none => rfl
  | some rr =>
    by_cases h : pyTruthy rr.client_id
    · simp only [h, if_true]
      split <;> rfl
    · simp only [h, Bool.false_eq_true, if_false]

theorem auto_register_client_trace (env : Env) (n ep : String)
    (c0 s0 : Option String) (file : Option Store) :
    (auto_register_client env n ep c0 s0 file).2.1 = []
    ∨ (auto_register_client env n ep c0 s0 file).2.1
      = [Event.registrationPost ep] := by
  rcases hg : get_stored_token file n env.now with _ | sd
  · right
    simp only [auto_register_client, hg]
    simpa using register_client_request_trace env n ep c0 s0 file
  · by_cases h : sd.client_id.isSome = true
    · left
      simp [auto_register_client, hg, h]
    · right
      simp only [auto_register_client, hg]
      simp only [Option.isSome_some, Option.some_bind, Bool.true_and, h,
        Bool.false_eq_true, if_false]
      exact register_client_request_trace env n ep c0 s0 file

/-- The event trace of initHandler is the discovery GET followed by the
registrar's trace (empty when registration is skipped): the definition
unfolded. -/
theorem initHandler_trace_eq (env : Env) (n u : String) (cfg : OAuthConfig) :
    (initHandler env n u cfg).2.1
      = Event.discoveryGet (rstripSlash u ++ "/.well-known/oauth-authorization-server")
        :: (if (!pyTruthy cfg.client_id
                && pyTruthy (env.discovery.bind Discovery.registration_endpoint)) = true
            then auto_register_client env n
                ((env.discovery.bind Discovery.registration_endpoint).getD "")
                cfg.client_id cfg.client_secret env.file
            else ((cfg.client_id, cfg.client_secret), [], env.file)).2.1 := rfl

theorem initHandler_no_tokenPost (env : Env) (n u : String) (cfg : OAuthConfig) :
    ((initHandler env n u cfg).2.1.any Event.isTokenPost) = false := by
  rw [initHandler_trace_eq]
  split
  · rcases auto_register_client_trace env n
        ((env.discovery.bind Discovery.registration_endpoint).getD "")
        cfg.client_id cfg.client_secret env.file with h | h <;>
      simp [h, Event.isTokenPost]
  · simp [Event.isTokenPost]

theorem initHandler_no_refreshPost (env : Env) (n u : String) (cfg : OAuthConfig) :
    ((initHandler env n u cfg).2.1.any Event.isRefreshPost) = false := by
  rw [initHandler_trace_eq]
  split
  · rcases auto_register_client_trace env n
        ((env.discovery.bind Discovery.registration_endpoint).getD "")
        cfg.client_id cfg.client_secret env.file with h | h <;>
      simp [h, Event.isRefreshPost]
  · simp [Event.isRefreshPost]

theorem freshFlow_no_refreshPost (env : Env) (h : Handler) (file : Option Store)
    (ev0 : List Event) (hev : (ev0.any Event.isRefreshPost) = false) :
    ((freshFlow env h file ev0).2.1.any Event.isRefreshPost) = false := by
  unfold freshFlow
  cases env.callback with
  | timeout => simp [hev, Event.isRefreshPost]
  | authError e => simp [hev, Event.isRefreshPost]
  | code c =>
    cases env.exchangeResponse with
    | none => simp [hev, Event.isRefreshPost]
    | some tr =>
      rcases hst : store_token file h.server_name env.now tr with ⟨td2, ts⟩ | e <;>
        simp [hst, hev, Event.isRefreshPost]

theorem authorize_no_refreshPost (env : Env) (h : Handler) (file : Option Store) :
    ((authorize env h file).2.1.any Event.isRefreshPost) = false := by
  unfold authorize
  cases hso : get_stored_token file h.server_name env.now with
  | some td => simp
  | none => simpa using freshFlow_no_refreshPost env h file [] (by simp)

/-- Shape of a successful store_token: the file gains the finalized record
under the server name; the finalized record differs from the input data at
most in expires_at, which is computed from a numeric expires_in. -/
theorem store_token_ok_shape (file : Option Store) (name : String) (now : Int)
    (data td : TokenData) (ts : Store)
    (h : store_token file name now data = .ok (td, ts)) :
    ts = setKey (file.getD []) name td
    ∧ td.access_token = data.access_token
    ∧ td.refresh_token = data.refresh_token
    ∧ td.client_id = data.client_id
    ∧ td.client_secret = data.client_secret
    ∧ td.expires_in = data.expires_in
    ∧ (data.expires_in = none → td = data)
    ∧ (∀ m, data.expires_in = some (.num m) → td.expires_at = some (now + m)) := by
  rcases hei : data.expires_in with _ | v
  · simp only [store_token, hei] at h
    simp only [Except.ok.injEq, Prod.mk.injEq] at h
    obtain ⟨rfl, rfl⟩ := h
    and_intros <;> first
      | rfl
      | exact hei
      | (intro _; rfl)
      | (intro m hm; simp [hei] at hm)
  · rcases v with n | s
    · simp only [store_token, hei] at h
      simp only [Except.ok.injEq, Prod.mk.injEq] at h
      obtain ⟨rfl, rfl⟩ := h
      and_intros <;> first
        | rfl
        | exact hei
        | (intro hnone; simp [hei] at hnone)
        | (intro m hm;
           simp only [hei, Option.some.injEq, Val.num.injEq] at hm;
           subst hm; rfl)
    · simp [store_token, hei] at h

/-- Claim C6: get_stored_token, the CHECK_STORE step, never returns a record
whose expires_at is not in the strict future; at the boundary, when the
current time equals expires_at, the token counts as expired and no stored
token is returned. -/
theorem C6_check_store_expiry :
    (∀ (file : Option Store) (name : String) (now e : Int) (td : TokenData),
        get_stored_token file name now = some td → td.expires_at = some e → now < e)
    ∧ (∀ (ts : Store) (name : String) (now : Int) (td : TokenData),
        lookupKey ts name = some td → td.expires_at = some now →
        get_stored_token (some ts) name now = none) := by
  constructor
  · intro file name now e td h hexp
    rcases file with _ | ts
    · simp [get_stored_token] at h
    · rcases hl : lookupKey ts name with _ | td0
      · simp [get_stored_token, hl] at h
      · by_cases ha : td0.access_token.isNone = true
        · simp [get_stored_token, hl, ha] at h
        · rcases he : td0.expires_at with _ | e0
          · simp [get_stored_token, hl, ha, he] at h
            subst h
            rw [he] at hexp
            cases hexp
          · by_cases hge : now ≥ e0
            · simp [get_stored_token, hl, ha, he, hge] at h
            · simp [get_stored_token, hl, ha, he, hge] at h
              subst h
              rw [he] at hexp
              injection hexp with hexp
              omega
  · intro ts name now td hl hexp
    simp [get_stored_token, hl, hexp, le_refl]

/-- Witness for C6 at concrete inputs: a token expiring at 100 is valid at 0,
and a token whose expires_at equals the current time 50 is rejected. -/
theorem C6_check_store_expiry_witness :
    ((0 : Int) < 100)
    ∧ get_stored_token
        (some [("acme", { access_token := some "t", expires_at := some 50 })])
        "acme" 50 = none := by
  constructor
  · exact C6_check_store_expiry.1
      (some [("acme", { access_token := some "t", expires_at := some 100 })])
      "acme" 0 100 { access_token := some "t", expires_at := some 100 }
      (by decide) (by decide)
  · exact C6_check_store_expiry.2
      [("acme", { access_token := some "t", expires_at := some 50 })]
      "acme" 50 { access_token := some "t", expires_at := some 50 }
      (by decide) (by decide)

/-- Claim C10: store_token leaves every other server's entry in the token
file unchanged, replacing only the entry keyed by this server name; a
missing or unparseable existing file is treated as the empty mapping, which
is the getD on the parsed file. -/
theorem C10_store_token_frame :
    ∀ (file : Option Store) (name : String) (now : Int) (data td : TokenData)
      (ts : Store),
      store_token file name now data = .ok (td, ts) →
      (∀ k, k ≠ name → lookupKey ts k = lookupKey (file.getD []) k)
      ∧ lookupKey ts name = some td := by
  intro file name now data td ts h
  obtain ⟨hts, -⟩ := store_token_ok_shape file name now data td ts h
  subst hts
  exact ⟨fun k hk => lookupKey_setKey_ne _ _ _ _ hk, lookupKey_setKey_self _ _ _⟩

/-- Witness for C10 at a concrete store: writing acme leaves beta unchanged
and replaces acme. -/
theorem C10_store_token_frame_witness :
    lookupKey [("acme", { access_token := some "n" }),
               ("beta", { access_token := some "b" })] "beta"
      = lookupKey ((some [("acme", { access_token := some "a" }),
                          ("beta", { access_token := some "b" })] : Option Store).getD [])
          "beta"
    ∧ lookupKey [("acme", { access_token := some "n" }),
                 ("beta", { access_token := some "b" })] "acme"
      = some { access_token := some "n" } := by
  have happ := C10_store_token_frame
      (some [("acme", { access_token := some "a" }),
             ("beta", { access_token := some "b" })])
      "acme" 0 { access_token := some "n" } { access_token := some "n" }
      [("acme", { access_token := some "n" }),
       ("beta", { access_token := some "b" })]
      (by decide)
  exact ⟨happ.1 "beta" (by decide), happ.2⟩

/-- Claim C8: the PKCE verifier is the URL-safe unpadded base64 encoding of
the 32 bytes from secrets.token_bytes, which is 256 bits of randomness; the
challenge equals the URL-safe unpadded base64 encoding of the SHA-256 digest
of the verifier's ASCII bytes; and re-deriving the challenge from the same
verifier is deterministic. -/
theorem C8_pkce_pair :
    ∀ (bytes : List Nat), bytes.length = 32 →
      (genPkce bytes).1 = base64urlNoPad bytes
      ∧ 8 * bytes.length = 256
      ∧ (genPkce bytes).2 = base64urlNoPad (sha256 (strBytes (genPkce bytes).1))
      ∧ ∀ v1 v2 : String, v1 = v2 → deriveChallenge v1 = deriveChallenge v2 := by
  intro bytes hlen
  exact ⟨rfl, by omega, rfl, fun v1 v2 hv => by rw [hv]⟩

/-- Witness for C8 at the all-zero 32-byte input. -/
theorem C8_pkce_pair_witness :
    (List.replicate 32 0).length = 32
    ∧ (genPkce (List.replicate 32 0)).2
      = base64urlNoPad (sha256 (strBytes (genPkce (List.replicate 32 0)).1)) :=
  ⟨by decide, (C8_pkce_pair (List.replicate 32 0) (by decide)).2.2.1⟩

/-- Sanity check of the SHA-256 embedding against the FIPS 180-4 test vector
for the three-byte message abc. -/
theorem sha256_matches_fips_vector :
    sha256 (strBytes "abc")
      = [186, 120, 22, 191, 143, 1, 207, 234,
   65, 65, 64, 222, 93, 174, 34, 35,
   176, 3, 97, 163, 150, 23, 122, 156,
   180, 16, 255, 97, 242, 0, 21, 173] := by decide

/-- Claim C5: refuted on the code — when the token endpoint answers the code
exchange with HTTP 200 and a body whose expires_in is the string 3600,
store_token's timedelta call raises TypeError inside a try block that
catches requests.RequestException only, and the exception escapes
get_token_for_server instead of becoming an absent token. -/
theorem C5_uncaught_exception :
    (get_token_for_server
        { callback := .code "authcode1",
          exchangeResponse := some { access_token := some "tokX",
                                     expires_in := some (.str "3600") } }
        "acme" "https://acme.example" {}).1
      = .error .typeError := by decide

/-- Claim C3 counterexample: store_token replaces the record rather than
merging: writing data without a refresh_token over a record that had one
drops the field, so an existing field absent from the new data is not left
intact. -/
theorem C3_counterexample :
    (store_token
        (some [("acme", { access_token := some "old", refresh_token := some "r0" })])
        "acme" 0 { access_token := some "new" }).map
      (fun p => ((lookupKey p.2 "acme").bind TokenData.refresh_token,
                 (lookupKey p.2 "acme").bind TokenData.access_token))
      = .ok (none, some "new") := by decide

/-- The record the run left in the token file for a server, if any. -/
def storedRecordOf (r : (Option String × Option String) × List Event × Option Store)
    (name : String) : Option TokenData :=
  r.2.2.bind (fun ts => lookupKey ts name)

/-- Claim C3 (amended): store_token replaces the per-server record with the
new data, computing expires_at from a numeric expires_in, so fields absent
from the new data are dropped rather than merged; a pre-existing
access_token survives a registration write only because
_auto_register_client re-reads the stored record and merges the credentials
into it before writing, which requires the stored record to be valid. -/
theorem C3_persist_replaces :
    (∀ (file : Option Store) (name : String) (now : Int) (data td : TokenData)
        (ts : Store),
        store_token file name now data = .ok (td, ts) →
        lookupKey ts name = some td
        ∧ td.access_token = data.access_token
        ∧ td.refresh_token = data.refresh_token
        ∧ td.client_id = data.client_id
        ∧ td.client_secret = data.client_secret
        ∧ (data.expires_in = none → td = data))
    ∧ (∀ (env : Env) (name ep : String) (c0 s0 : Option String)
          (file : Option Store) (sd : TokenData) (rr : RegResponse),
        get_stored_token file name env.now = some sd →
        sd.client_id = none →
        sd.expires_in = none →
        env.regResponse = some rr →
        pyTruthy rr.client_id = true →
        (storedRecordOf (auto_register_client env name ep c0 s0 file) name).map
            TokenData.access_token = some sd.access_token
        ∧ (storedRecordOf (auto_register_client env name ep c0 s0 file) name).map
            TokenData.client_id = some rr.client_id) := by
  constructor
  · intro file name now data td ts h
    obtain ⟨hts, h1, h2, h3, h4, h5, h6, h7⟩ := store_token_ok_shape file name now data td ts h
    subst hts
    exact ⟨lookupKey_setKey_self _ _ _, h1, h2, h3, h4, h6⟩
  · intro env name ep c0 s0 file sd rr hg hcid hei hrr htr
    by_cases hcs : pyTruthy rr.client_secret = true
    · have hrun : (auto_register_client env name ep c0 s0 file).2.2
          = some (setKey (file.getD []) name
              { sd with client_id := rr.client_id,
                        client_secret := rr.client_secret }) := by
        simp [auto_register_client, register_client_request, store_token,
          hg, hcid, hrr, htr, hcs, hei]
      constructor <;>
        simp [storedRecordOf, hrun, lookupKey_setKey_self]
    · have hrun : (auto_register_client env name ep c0 s0 file).2.2
          = some (setKey (file.getD []) name
              { sd with client_id := rr.client_id }) := by
        simp [auto_register_client, register_client_request, store_token,
          hg, hcid, hrr, htr, hcs, hei]
      constructor <;>
        simp [storedRecordOf, hrun, lookupKey_setKey_self]

/-- Witness for C3 at concrete inputs: a plain replacing write, and a
registration write over a valid stored token that preserves it. -/
theorem C3_persist_replaces_witness :
    lookupKey [("srv", { access_token := some "new" })] "srv"
      = some { access_token := some "new" }
    ∧ (storedRecordOf
        (auto_register_client
          { regResponse := some { client_id := some "cid9" },
            file := some [("srv", { access_token := some "tokA",
                                    expires_at := some 10 })] }
          "srv" "https://srv/register" none none
          (some [("srv", { access_token := some "tokA", expires_at := some 10 })]))
        "srv").map TokenData.access_token = some (some "tokA") := by
  constructor
  · exact (C3_persist_replaces.1
      (some [("srv", { access_token := some "old", refresh_token := some "r0" })])
      "srv" 0 { access_token := some "new" } { access_token := some "new" }
      [("srv", { access_token := some "new" })]
      (by decide)).1
  · exact ((C3_persist_replaces.2
      { regResponse := some { client_id := some "cid9" },
        file := some [("srv", { access_token := some "tokA",
                                expires_at := some 10 })] }
      "srv" "https://srv/register" none none
      (some [("srv", { access_token := some "tokA", expires_at := some 10 })])
      { access_token := some "tokA", expires_at := some 10 }
      { client_id := some "cid9" }
      (by decide) (by decide) (by decide) (by decide) (by decide)).1)

/-- Claim C1: refuted on the code — authorize never attempts a refresh grant
on any run, because the refresh branch re-tests the stored_token variable
that is always none when the branch is reached (a record with only a
refresh_token makes get_stored_token return none, since it has no
access_token). In scenario C, with the store holding only refresh_token r1
and the refresh endpoint ready to answer tok2, the run makes no refresh
POST, opens the browser for the interactive flow, and does not return
tok2. -/
theorem C1_refresh_never_attempted :
    (∀ (env : Env) (name url : String) (cfg : OAuthConfig),
        ((get_token_for_server env name url cfg).2.1.any Event.isRefreshPost) = false)
    ∧ (get_token_for_server
        { file := some [("acme", { refresh_token := some "r1" })],
          refreshResponse := some { access_token := some "tok2",
                                    expires_in := some (.num 3600) },
          callback := .authError "access_denied" }
        "acme" "https://acme.example" {}).1 = .ok none
    ∧ ((get_token_for_server
        { file := some [("acme", { refresh_token := some "r1" })],
          refreshResponse := some { access_token := some "tok2",
                                    expires_in := some (.num 3600) },
          callback := .authError "access_denied" }
        "acme" "https://acme.example" {}).2.1.any Event.isBrowserOpen) = true := by
  refine ⟨?_, by decide, by decide⟩
  intro env name url cfg
  unfold get_token_for_server
  simp [List.any_append, initHandler_no_refreshPost, authorize_no_refreshPost]

/-- Claim C2: refuted on the code — with the store holding only a previously
registered client_id c1 for acme (no access_token), the registrar does not
reuse it: get_stored_token returns none for records without a valid
access_token, so initHandler performs the registration POST, adopts the
response credentials c2, and overwrites the stored record. -/
theorem C2_stored_credentials_not_reused :
    (initHandler
        { discovery := some { registration_endpoint := some "https://acme.example/register" },
          regResponse := some { client_id := some "c2" },
          file := some [("acme", { client_id := some "c1" })] }
        "acme" "https://acme.example" {}).1.client_id = some "c2"
    ∧ ((initHandler
        { discovery := some { registration_endpoint := some "https://acme.example/register" },
          regResponse := some { client_id := some "c2" },
          file := some [("acme", { client_id := some "c1" })] }
        "acme" "https://acme.example" {}).2.1.any Event.isRegistrationPost) = true
    ∧ (initHandler
        { discovery := some { registration_endpoint := some "https://acme.example/register" },
          regResponse := some { client_id := some "c2" },
          file := some [("acme", { client_id := some "c1" })] }
        "acme" "https://acme.example" {}).2.2
      = some [("acme", { client_id := some "c2" })] := by
  refine ⟨by decide, by decide, by decide⟩

/-- Claim C4 counterexample: in end-to-end scenario B the stored token tok1
is returned, but the run still performs a network call — the constructor's
discovery GET — so the zero-network-calls part of the claim is false. -/
theorem C4_counterexample :
    (get_token_for_server
        { file := some [("acme", { access_token := some "tok1",
                                   expires_at := some 3600 })] }
        "acme" "https://acme.example" {}).1 = .ok (some "tok1")
    ∧ (get_token_for_server
        { file := some [("acme", { access_token := some "tok1",
                                   expires_at := some 3600 })] }
        "acme" "https://acme.example" {}).2.1
      = [Event.discoveryGet "https://acme.example/.well-known/oauth-authorization-server"]
    ∧ ((get_token_for_server
        { file := some [("acme", { access_token := some "tok1",
                                   expires_at := some 3600 })] }
        "acme" "https://acme.example" {}).2.1.any Event.isNetworkCall) = true := by
  refine ⟨by decide, by decide, by decide⟩

/-- Claim C4 (amended): when the store holds a valid token for the server
after construction, obtain_token returns exactly that access_token and
authorize adds no event, so no token-endpoint POST ever happens; but the
constructor has already performed the discovery GET, the first event of
every run, and may have performed a registration POST, so the number of
network calls is not zero. -/
theorem C4_stored_token_short_circuit :
    ∀ (env : Env) (name url : String) (cfg : OAuthConfig) (td : TokenData),
      get_stored_token (initHandler env name url cfg).2.2 name env.now = some td →
      (get_token_for_server env name url cfg).1 = .ok td.access_token
      ∧ (get_token_for_server env name url cfg).2.1 = (initHandler env name url cfg).2.1
      ∧ ((get_token_for_server env name url cfg).2.1.any Event.isTokenPost) = false
      ∧ (get_token_for_server env name url cfg).2.1.head?
        = some (.discoveryGet
            (rstripSlash url ++ "/.well-known/oauth-authorization-server")) := by
  intro env name url cfg td h
  have hsn : (initHandler env name url cfg).1.server_name = name := rfl
  have hauth : authorize env (initHandler env name url cfg).1
        (initHandler env name url cfg).2.2
      = (.ok td.access_token, [], (initHandler env name url cfg).2.2) := by
    simp [authorize, hsn, h]
  refine ⟨?_, ?_, ?_, ?_⟩
  · simp [get_token_for_server, hauth]
  · simp [get_token_for_server, hauth]
  · simp [get_token_for_server, hauth, initHandler_no_tokenPost]
  · simp [get_token_for_server, hauth, initHandler_trace_eq]

/-- Witness for C4 at scenario B: the valid stored token is returned. -/
theorem C4_stored_token_short_circuit_witness :
    get_stored_token
        (initHandler
          { file := some [("acme", { access_token := some "tok1",
                                     expires_at := some 3600 })] }
          "acme" "https://acme.example" {}).2.2
        "acme" 0
      = some { access_token := some "tok1", expires_at := some 3600 }
    ∧ (get_token_for_server
        { file := some [("acme", { access_token := some "tok1",
                                   expires_at := some 3600 })] }
        "acme" "https://acme.example" {}).1
      = .ok (some "tok1") := by
  constructor
  · decide
  · exact (C4_stored_token_short_circuit
      { file := some [("acme", { access_token := some "tok1",
                                 expires_at := some 3600 })] }
      "acme" "https://acme.example" {}
      { access_token := some "tok1", expires_at := some 3600 }
      (by decide)).1

/-- The client_id field of the constructed handler is the registrar's result
when registration runs, the configured value otherwise: the definition
unfolded. -/
theorem initHandler_client_id_eq (env : Env) (n u : String) (cfg : OAuthConfig) :
    (initHandler env n u cfg).1.client_id
      = (if (!pyTruthy cfg.client_id
              && pyTruthy (env.discovery.bind Discovery.registration_endpoint)) = true
          then auto_register_client env n
              ((env.discovery.bind Discovery.registration_endpoint).getD "")
              cfg.client_id cfg.client_secret env.file
          else ((cfg.client_id, cfg.client_secret), [], env.file)).1.1 := rfl

/-- The token file after construction: the definition unfolded. -/
theorem initHandler_file_eq (env : Env) (n u : String) (cfg : OAuthConfig) :
    (initHandler env n u cfg).2.2
      = (if (!pyTruthy cfg.client_id
              && pyTruthy (env.discovery.bind Discovery.registration_endpoint)) = true
          then auto_register_client env n
              ((env.discovery.bind Discovery.registration_endpoint).getD "")
              cfg.client_id cfg.client_secret env.file
          else ((cfg.client_id, cfg.client_secret), [], env.file)).2.2 := rfl

/-- Claim C7: endpoint resolution precedence, evaluated independently for the
three endpoints. A truthy explicit auth_url or token_url in the config wins;
otherwise a truthy discovery field wins; otherwise the convention URLs
base/oauth/authorize and base/oauth/token apply. The registration endpoint
is exactly the discovery field — the config has no slot for it and there is
no convention fallback — and when it is absent or empty, dynamic
registration is skipped: no registration POST happens, and the client
credentials and token file are left as configured. -/
theorem C7_endpoint_resolution :
    ∀ (env : Env) (name url : String) (cfg : OAuthConfig),
      (∀ u, cfg.auth_url = some u → u ≠ "" →
        (initHandler env name url cfg).1.auth_url = u)
      ∧ (∀ u, cfg.token_url = some u → u ≠ "" →
        (initHandler env name url cfg).1.token_url = u)
      ∧ (pyTruthy cfg.auth_url = false → ∀ d v, env.discovery = some d →
          d.authorization_endpoint = some v → v ≠ "" →
          (initHandler env name url cfg).1.auth_url = v)
      ∧ (pyTruthy cfg.token_url = false → ∀ d v, env.discovery = some d →
          d.token_endpoint = some v → v ≠ "" →
          (initHandler env name url cfg).1.token_url = v)
      ∧ (pyTruthy cfg.auth_url = false →
          pyTruthy (env.discovery.bind Discovery.authorization_endpoint) = false →
          (initHandler env name url cfg).1.auth_url
            = rstripSlash url ++ "/oauth/authorize")
      ∧ (pyTruthy cfg.token_url = false →
          pyTruthy (env.discovery.bind Discovery.token_endpoint) = false →
          (initHandler env name url cfg).1.token_url
            = rstripSlash url ++ "/oauth/token")
      ∧ (initHandler env name url cfg).1.registration_endpoint
          = env.discovery.bind Discovery.registration_endpoint
      ∧ (pyTruthy (env.discovery.bind Discovery.registration_endpoint) = false →
          ((initHandler env name url cfg).2.1.any Event.isRegistrationPost) = false
          ∧ (initHandler env name url cfg).1.client_id = cfg.client_id
          ∧ (initHandler env name url cfg).2.2 = env.file) := by
  intro env name url cfg
  have hA : (initHandler env name url cfg).1.auth_url
      = pyOr cfg.auth_url (discover_auth_url env.discovery (rstripSlash url)) := rfl
  have hT : (initHandler env name url cfg).1.token_url
      = pyOr cfg.token_url (discover_token_url env.discovery (rstripSlash url)) := rfl
  refine ⟨?_, ?_, ?_, ?_, ?_, ?_, rfl, ?_⟩
  · intro u hu hne
    rw [hA, hu]
    exact pyOr_of_some u _ hne
  · intro u hu hne
    rw [hT, hu]
    exact pyOr_of_some u _ hne
  · intro hf d v hd hv hne
    rw [hA, pyOr_of_falsy _ _ hf, hd]
    exact discover_auth_url_of_some d _ v hv hne
  · intro hf d v hd hv hne
    rw [hT, pyOr_of_falsy _ _ hf, hd]
    exact discover_token_url_of_some d _ v hv hne
  · intro hf hdf
    rw [hA, pyOr_of_falsy _ _ hf]
    exact discover_auth_url_of_falsy _ _ hdf
  · intro hf hdf
    rw [hT, pyOr_of_falsy _ _ hf]
    exact discover_token_url_of_falsy _ _ hdf
  · intro hf
    refine ⟨?_, ?_, ?_⟩
    · rw [initHandler_trace_eq]
      simp [hf, Event.isRegistrationPost]
    · rw [initHandler_client_id_eq]
      simp [hf]
    · rw [initHandler_file_eq]
      simp [hf]

/-- Witness for C7 at concrete inputs: an explicit auth_url beats a
different discovered one; a discovered token endpoint beats the convention;
with no discovery document both conventions apply and registration is
skipped. -/
theorem C7_endpoint_resolution_witness :
    (initHandler
        { discovery := some { authorization_endpoint := some "https://d/auth",
                              token_endpoint := some "https://d/token" } }
        "acme" "https://acme.example/"
        { auth_url := some "https://cfg/auth" }).1.auth_url = "https://cfg/auth"
    ∧ (initHandler
        { discovery := some { authorization_endpoint := some "https://d/auth",
                              token_endpoint := some "https://d/token" } }
        "acme" "https://acme.example/"
        { auth_url := some "https://cfg/auth" }).1.token_url = "https://d/token"
    ∧ (initHandler ({} : Env) "acme" "https://acme.example" {}).1.auth_url
      = rstripSlash "https://acme.example" ++ "/oauth/authorize"
    ∧ (initHandler ({} : Env) "acme" "https://acme.example" {}).1.token_url
      = rstripSlash "https://acme.example" ++ "/oauth/token"
    ∧ ((initHandler ({} : Env) "acme" "https://acme.example" {}).2.1.any
        Event.isRegistrationPost) = false := by
  refine ⟨?_, ?_, ?_, ?_, ?_⟩
  · exact (C7_endpoint_resolution
      { discovery := some { authorization_endpoint := some "https://d/auth",
                            token_endpoint := some "https://d/token" } }
      "acme" "https://acme.example/" { auth_url := some "https://cfg/auth" }).1
      "https://cfg/auth" rfl (by decide)
  · exact (C7_endpoint_resolution
      { discovery := some { authorization_endpoint := some "https://d/auth",
                            token_endpoint := some "https://d/token" } }
      "acme" "https://acme.example/"
      { auth_url := some "https://cfg/auth" }).2.2.2.1 (by decide)
      { authorization_endpoint := some "https://d/auth",
        token_endpoint := some "https://d/token" }
      "https://d/token" rfl rfl (by decide)
  · exact (C7_endpoint_resolution ({} : Env) "acme" "https://acme.example" {}).2.2.2.2.1
      (by decide) (by decide)
  · exact (C7_endpoint_resolution ({} : Env) "acme" "https://acme.example" {}).2.2.2.2.2.1
      (by decide) (by decide)
  · exact ((C7_endpoint_resolution ({} : Env) "acme" "https://acme.example" {}).2.2.2.2.2.2.2
      (by decide)).1

/-- Claim C9: a callback request whose query carries an error parameter and
no code gets a 400 response and records the error; the wait loop then
observes the error outcome, and for any run in that situation with no valid
stored token, authorize returns an absent token and its trace contains no
token-endpoint POST: the code exchange is never attempted. -/
theorem C9_callback_error_no_exchange :
    (do_GET [("error", ["access_denied"]),
             ("error_description", ["User declined"])]).status = 400
    ∧ (do_GET [("error", ["access_denied"]),
               ("error_description", ["User declined"])]).auth_error
      = some "access_denied"
    ∧ outcomeOfGet (do_GET [("error", ["access_denied"]),
                            ("error_description", ["User declined"])])
      = some (.authError "access_denied")
    ∧ ∀ (env : Env) (h : Handler) (file : Option Store) (e : String),
        env.callback = .authError e →
        get_stored_token file h.server_name env.now = none →
        (authorize env h file).1 = .ok none
        ∧ ((authorize env h file).2.1.any Event.isTokenPost) = false := by
  refine ⟨by decide, by decide, by decide, ?_⟩
  intro env h file e hcb hst
  have hfresh : authorize env h file = freshFlow env h file [] := by
    simp [authorize, hst]
  rw [hfresh]
  constructor <;> simp [freshFlow, hcb, Event.isTokenPost]

/-- Witness for C9 at a concrete handler and environment. -/
theorem C9_callback_error_no_exchange_witness :
    (({ callback := .authError "access_denied" } : Env).callback
      = CallbackOutcome.authError "access_denied")
    ∧ get_stored_token none "srv" 0 = none
    ∧ (authorize { callback := .authError "access_denied" }
        { server_name := "srv", server_url := "https://srv",
          redirect_port := 8080,
          redirect_uri := "http://localhost:8080/callback",
          discovery_data := none,
          auth_url := "https://srv/oauth/authorize",
          token_url := "https://srv/oauth/token",
          registration_endpoint := none, client_id := none,
          client_secret := none, scopes := [] } none).1 = .ok none := by
  refine ⟨rfl, by decide, ?_⟩
  exact ((C9_callback_error_no_exchange).2.2.2
    { callback := .authError "access_denied" }
    { server_name := "srv", server_url := "https://srv",
      redirect_port := 8080,
      redirect_uri := "http://localhost:8080/callback",
      discovery_data := none,
      auth_url := "https://srv/oauth/authorize",
      token_url := "https://srv/oauth/token",
      registration_endpoint := none, client_id := none,
      client_secret := none, scopes := [] }
    none "access_denied" rfl (by decide)).1

end OAuthModel
